import Mathlib

/-!
Shallow embedding of the christmas-tree repository's two computational
units and proofs of the spec's claims about them.

Part 1: the tree geometry calculator, `calculateTree`, embedded from the
version carrying warnings and the reserved topper platform
(src/unnamed/part_000, lines 152-230).  JS numbers used as exact linear
dimensions are modelled as rationals (ℚ); angles, which pass through
`Math.atan` / `Math.tan`, are modelled as reals (ℝ).  `Math.floor` on a
number that is an exact integer division result becomes `Int.floor` on ℚ,
and `Math.ceil` becomes `Int.ceil`.

Part 2: the angled wedge mesh builder from
src/src/components/AngledWoodPiece.tsx.
-/

namespace ChristmasTree

/-- Stock material dimensions in millimetres (depth, height = layer
thickness, length of one stock piece as sold). -/
structure StockDimensions where
  depth : ℚ
  height : ℚ
  length : ℚ

/-- Target tree dimensions in millimetres. -/
structure TreeDimensions where
  baseWidth : ℚ
  targetHeight : ℚ

/-- One physical cut layer. `layerNumber` is 0 at the base; `length` is the
piece's long dimension; `cutAngle` is in degrees and shared by all pieces
of one calculation; `depth` and `height` are copied from stock. -/
structure TreePiece where
  layerNumber : ℕ
  length : ℚ
  cutAngle : ℝ
  depth : ℚ
  height : ℚ

/-- Aggregate material metrics of one calculation. -/
structure StockMaterialNeeded where
  totalLinearMeters : ℚ
  usableLinearMeters : ℚ
  starPlatformLinearMeters : ℚ
  numberOfStockPieces : ℤ

/-- The result aggregate returned by `calculateTree`. -/
structure TreeCalculation where
  pieces : List TreePiece
  numberOfLayers : ℕ
  totalLayers : ℤ
  actualHeight : ℚ
  cutAngleDegrees : ℝ
  reservedTopPiece : Option TreePiece
  warnings : List String
  stockMaterialNeeded : StockMaterialNeeded

/-- `const totalLayers = Math.floor(tree.targetHeight / stock.height)`. -/
def totalLayers (stock : StockDimensions) (tree : TreeDimensions) : ℤ :=
  ⌊tree.targetHeight / stock.height⌋

/-- `const taperHeight = totalLayers * stock.height`. -/
def taperHeight (stock : StockDimensions) (tree : TreeDimensions) : ℚ :=
  (totalLayers stock tree : ℚ) * stock.height

/-- The warning pushed when fewer than two layers fit. -/
def topperWarning : String :=
  "Need at least two layers to leave a flat platform for the tree topper. Increase the target height or use thinner stock."

/-- The warnings list: one entry exactly when `totalLayers < 2`. -/
def warningsFor (stock : StockDimensions) (tree : TreeDimensions) : List String :=
  if totalLayers stock tree < 2 then [topperWarning] else []

/-- The automatically computed cut angle, in degrees:
0 on the degenerate inputs, `atan(2 * taperHeight / baseWidth)` converted
to degrees otherwise. -/
noncomputable def autoCutAngleDegrees (stock : StockDimensions)
    (tree : TreeDimensions) : ℝ :=
  if taperHeight stock tree = 0 ∨ tree.baseWidth = 0 then 0
  else Real.arctan ((2 * (taperHeight stock tree : ℝ)) / (tree.baseWidth : ℝ))
    * 180 / Real.pi

/-- The cut angle actually used: the manual override verbatim when
supplied, the automatic angle otherwise. -/
noncomputable def resolvedCutAngleDegrees (stock : StockDimensions)
    (tree : TreeDimensions) (manualAngleOverride : Option ℝ) : ℝ :=
  match manualAngleOverride with
  | some a => a
  | none => autoCutAngleDegrees stock tree

/-- Width of layer `i` (linear taper; all widths equal `baseWidth` in the
degenerate `taperHeight = 0` case). -/
def widthAtLayer (stock : StockDimensions) (tree : TreeDimensions)
    (i : ℕ) : ℚ :=
  if taperHeight stock tree = 0 then tree.baseWidth
  else tree.baseWidth * (1 - ((i : ℚ) * stock.height) / taperHeight stock tree)

/-- The piece pushed for layer `i`. -/
noncomputable def mkPiece (stock : StockDimensions) (tree : TreeDimensions)
    (angle : ℝ) (i : ℕ) : TreePiece :=
  { layerNumber := i
    length := widthAtLayer stock tree i
    cutAngle := angle
    depth := stock.depth
    height := stock.height }

/-- The full pre-reservation list of pieces (`allPieces` in the source):
one piece per layer index in `[0, totalLayers)`. -/
noncomputable def allPieces (stock : StockDimensions) (tree : TreeDimensions)
    (angle : ℝ) : List TreePiece :=
  (List.range (totalLayers stock tree).toNat).map (mkPiece stock tree angle)

/-- `allPieces.length > 0 ? allPieces[allPieces.length - 1] : null`. -/
noncomputable def reservedTopPieceFor (stock : StockDimensions)
    (tree : TreeDimensions) (angle : ℝ) : Option TreePiece :=
  (allPieces stock tree angle).getLast?

/-- `reservedTopPiece ? allPieces.slice(0, -1) : allPieces`. -/
noncomputable def usablePieces (stock : StockDimensions)
    (tree : TreeDimensions) (angle : ℝ) : List TreePiece :=
  match reservedTopPieceFor stock tree angle with
  | some _ => (allPieces stock tree angle).dropLast
  | none => allPieces stock tree angle

/-- `usablePieces.reduce((sum, piece) => sum + piece.length, 0)`. -/
noncomputable def usableLinearLength (stock : StockDimensions)
    (tree : TreeDimensions) (angle : ℝ) : ℚ :=
  (usablePieces stock tree angle).foldl (fun sum piece => sum + piece.length) 0

/-- `reservedTopPiece?.length ?? 0`. -/
noncomputable def starPlatformLength (stock : StockDimensions)
    (tree : TreeDimensions) (angle : ℝ) : ℚ :=
  match reservedTopPieceFor stock tree angle with
  | some p => p.length
  | none => 0

/-- `usableLinearLength + starPlatformLength`. -/
noncomputable def totalLinearLength (stock : StockDimensions)
    (tree : TreeDimensions) (angle : ℝ) : ℚ :=
  usableLinearLength stock tree angle + starPlatformLength stock tree angle

/-- `totalLinearLength === 0 ? 0 : Math.ceil(totalLinearLength / stock.length)`. -/
noncomputable def numberOfStockPiecesFor (stock : StockDimensions)
    (tree : TreeDimensions) (angle : ℝ) : ℤ :=
  if totalLinearLength stock tree angle = 0 then 0
  else ⌈totalLinearLength stock tree angle / stock.length⌉

/-- The tree geometry calculator, embedded from `calculateTree` in
src/unnamed/part_000 (lines 152-230). -/
noncomputable def calculateTree (stock : StockDimensions)
    (tree : TreeDimensions) (manualAngleOverride : Option ℝ) :
    TreeCalculation :=
  let angle := resolvedCutAngleDegrees stock tree manualAngleOverride
  { pieces := usablePieces stock tree angle
    numberOfLayers := (usablePieces stock tree angle).length
    totalLayers := totalLayers stock tree
    actualHeight := ((usablePieces stock tree angle).length : ℚ) * stock.height
    cutAngleDegrees := angle
    reservedTopPiece := reservedTopPieceFor stock tree angle
    warnings := warningsFor stock tree
    stockMaterialNeeded :=
      { totalLinearMeters := totalLinearLength stock tree angle / 1000
        usableLinearMeters := usableLinearLength stock tree angle / 1000
        starPlatformLinearMeters := starPlatformLength stock tree angle / 1000
        numberOfStockPieces := numberOfStockPiecesFor stock tree angle } }

/-- The calculator together with the JS termination behaviour of its piece
loop.  In the source, the loop bound is `Math.floor(tree.targetHeight /
stock.height)` (part_000 line 158): when `stock.height = 0` and
`targetHeight > 0` the JS quotient is `+Infinity`, `Math.floor` keeps it,
and the loop `for (let i = 0; i < totalLayers; i++)` (lines 183-196)
never terminates, so `calculateTree` never returns a value (`none` here).
In every other case the quotient is a finite number, `-Infinity` (loop
runs zero times) or `NaN` (comparison false, loop runs zero times), the
loop terminates, and the result is the exact-arithmetic calculation: for
`stock.height ≠ 0` the rational division agrees exactly with the JS one,
and for `stock.height = 0`, `targetHeight ≤ 0` both give zero pieces. -/
noncomputable def calculateTreeJS (stock : StockDimensions)
    (tree : TreeDimensions) (manualAngleOverride : Option ℝ) :
    Option TreeCalculation :=
  if stock.height = 0 ∧ 0 < tree.targetHeight then none
  else some (calculateTree stock tree manualAngleOverride)

/-! Part 2: the angled wedge mesh builder from
src/src/components/AngledWoodPiece.tsx (lines 16-143).  All quantities are
scene-unit reals. -/

/-- A 3D position (THREE.Vector3). -/
structure Vec3 where
  x : ℝ
  y : ℝ
  z : ℝ

/-- `const angleRad = (cutAngle * Math.PI) / 180`. -/
noncomputable def angleRadOf (cutAngle : ℝ) : ℝ := cutAngle * Real.pi / 180

/-- `const offset = height / Math.tan(angleRad)`: the horizontal inset of
the top face on each side. -/
noncomputable def offsetOf (height cutAngle : ℝ) : ℝ :=
  height / Real.tan (angleRadOf cutAngle)

/-- `const halfDepth = depth / 2`. -/
noncomputable def halfDepth (depth : ℝ) : ℝ := depth / 2

/-- `const halfHeight = height / 2`. -/
noncomputable def halfHeight (height : ℝ) : ℝ := height / 2

/-- `const bottomHalfLength = length / 2`. -/
noncomputable def bottomHalfLength (length : ℝ) : ℝ := length / 2

/-- `const topHalfLength = bottomHalfLength - offset`. -/
noncomputable def topHalfLength (length height cutAngle : ℝ) : ℝ :=
  bottomHalfLength length - offsetOf height cutAngle

/-- Bottom face vertex `v0 = (-bottomHalfLength, -halfHeight, -halfDepth)`. -/
noncomputable def v0 (length depth height : ℝ) : Vec3 :=
  ⟨-(bottomHalfLength length), -(halfHeight height), -(halfDepth depth)⟩

/-- Bottom face vertex `v1 = (bottomHalfLength, -halfHeight, -halfDepth)`. -/
noncomputable def v1 (length depth height : ℝ) : Vec3 :=
  ⟨bottomHalfLength length, -(halfHeight height), -(halfDepth depth)⟩

/-- Bottom face vertex `v2 = (bottomHalfLength, -halfHeight, halfDepth)`. -/
noncomputable def v2 (length depth height : ℝ) : Vec3 :=
  ⟨bottomHalfLength length, -(halfHeight height), halfDepth depth⟩

/-- Bottom face vertex `v3 = (-bottomHalfLength, -halfHeight, halfDepth)`. -/
noncomputable def v3 (length depth height : ℝ) : Vec3 :=
  ⟨-(bottomHalfLength length), -(halfHeight height), halfDepth depth⟩

/-- Top face vertex `v4 = (-topHalfLength, halfHeight, -halfDepth)`. -/
noncomputable def v4 (length depth height cutAngle : ℝ) : Vec3 :=
  ⟨-(topHalfLength length height cutAngle), halfHeight height, -(halfDepth depth)⟩

/-- Top face vertex `v5 = (topHalfLength, halfHeight, -halfDepth)`. -/
noncomputable def v5 (length depth height cutAngle : ℝ) : Vec3 :=
  ⟨topHalfLength length height cutAngle, halfHeight height, -(halfDepth depth)⟩

/-- Top face vertex `v6 = (topHalfLength, halfHeight, halfDepth)`. -/
noncomputable def v6 (length depth height cutAngle : ℝ) : Vec3 :=
  ⟨topHalfLength length height cutAngle, halfHeight height, halfDepth depth⟩

/-- Top face vertex `v7 = (-topHalfLength, halfHeight, halfDepth)`. -/
noncomputable def v7 (length depth height cutAngle : ℝ) : Vec3 :=
  ⟨-(topHalfLength length height cutAngle), halfHeight height, halfDepth depth⟩

/-- The flat `position` attribute array: 12 triangles, 36 vertices,
108 floats, in the source's order (bottom, top, front, back, right angled,
left angled; two triangles each). -/
noncomputable def wedgePositions (length depth height cutAngle : ℝ) : List ℝ :=
  [(v0 length depth height).x, (v0 length depth height).y, (v0 length depth height).z,
   (v1 length depth height).x, (v1 length depth height).y, (v1 length depth height).z,
   (v2 length depth height).x, (v2 length depth height).y, (v2 length depth height).z,
   (v0 length depth height).x, (v0 length depth height).y, (v0 length depth height).z,
   (v2 length depth height).x, (v2 length depth height).y, (v2 length depth height).z,
   (v3 length depth height).x, (v3 length depth height).y, (v3 length depth height).z,
   (v4 length depth height cutAngle).x, (v4 length depth height cutAngle).y, (v4 length depth height cutAngle).z,
   (v6 length depth height cutAngle).x, (v6 length depth height cutAngle).y, (v6 length depth height cutAngle).z,
   (v5 length depth height cutAngle).x, (v5 length depth height cutAngle).y, (v5 length depth height cutAngle).z,
   (v4 length depth height cutAngle).x, (v4 length depth height cutAngle).y, (v4 length depth height cutAngle).z,
   (v7 length depth height cutAngle).x, (v7 length depth height cutAngle).y, (v7 length depth height cutAngle).z,
   (v6 length depth height cutAngle).x, (v6 length depth height cutAngle).y, (v6 length depth height cutAngle).z,
   (v3 length depth height).x, (v3 length depth height).y, (v3 length depth height).z,
   (v2 length depth height).x, (v2 length depth height).y, (v2 length depth height).z,
   (v6 length depth height cutAngle).x, (v6 length depth height cutAngle).y, (v6 length depth height cutAngle).z,
   (v3 length depth height).x, (v3 length depth height).y, (v3 length depth height).z,
   (v6 length depth height cutAngle).x, (v6 length depth height cutAngle).y, (v6 length depth height cutAngle).z,
   (v7 length depth height cutAngle).x, (v7 length depth height cutAngle).y, (v7 length depth height cutAngle).z,
   (v0 length depth height).x, (v0 length depth height).y, (v0 length depth height).z,
   (v5 length depth height cutAngle).x, (v5 length depth height cutAngle).y, (v5 length depth height cutAngle).z,
   (v1 length depth height).x, (v1 length depth height).y, (v1 length depth height).z,
   (v0 length depth height).x, (v0 length depth height).y, (v0 length depth height).z,
   (v4 length depth height cutAngle).x, (v4 length depth height cutAngle).y, (v4 length depth height cutAngle).z,
   (v5 length depth height cutAngle).x, (v5 length depth height cutAngle).y, (v5 length depth height cutAngle).z,
   (v1 length depth height).x, (v1 length depth height).y, (v1 length depth height).z,
   (v5 length depth height cutAngle).x, (v5 length depth height cutAngle).y, (v5 length depth height cutAngle).z,
   (v6 length depth height cutAngle).x, (v6 length depth height cutAngle).y, (v6 length depth height cutAngle).z,
   (v1 length depth height).x, (v1 length depth height).y, (v1 length depth height).z,
   (v6 length depth height cutAngle).x, (v6 length depth height cutAngle).y, (v6 length depth height cutAngle).z,
   (v2 length depth height).x, (v2 length depth height).y, (v2 length depth height).z,
   (v0 length depth height).x, (v0 length depth height).y, (v0 length depth height).z,
   (v3 length depth height).x, (v3 length depth height).y, (v3 length depth height).z,
   (v7 length depth height cutAngle).x, (v7 length depth height cutAngle).y, (v7 length depth height cutAngle).z,
   (v0 length depth height).x, (v0 length depth height).y, (v0 length depth height).z,
   (v7 length depth height cutAngle).x, (v7 length depth height cutAngle).y, (v7 length depth height cutAngle).z,
   (v4 length depth height cutAngle).x, (v4 length depth height cutAngle).y, (v4 length depth height cutAngle).z]

/-- The flat `uv` attribute array: 36 texture-coordinate pairs, 72 floats,
constants independent of the inputs. -/
def wedgeUVs : List ℚ :=
  [0, 0,  1, 0,  1, 1,
   0, 0,  1, 1,  0, 1,
   0, 0,  1, 1,  1, 0,
   0, 0,  0, 1,  1, 1,
   0, 0,  1, 0,  1, 1,
   0, 0,  1, 1,  0, 1,
   0, 0,  1, 1,  1, 0,
   0, 0,  0, 1,  1, 1,
   0, 0,  0, 1,  1, 1,
   0, 0,  1, 1,  1, 0,
   0, 0,  1, 0,  1, 1,
   0, 0,  1, 1,  0, 1]

/-- The default inputs of the repository's input form, used by witnesses. -/
def sampleStock : StockDimensions := ⟨90, 35, 2400⟩

/-- The default tree dimensions of the repository's input form. -/
def sampleTree : TreeDimensions := ⟨600, 900⟩

/-! ### Helper lemmas about the calculator -/

lemma calculateTree_pieces (s : StockDimensions) (t : TreeDimensions)
    (o : Option ℝ) :
    (calculateTree s t o).pieces
      = usablePieces s t (resolvedCutAngleDegrees s t o) := rfl

lemma calculateTree_totalLayers (s : StockDimensions) (t : TreeDimensions)
    (o : Option ℝ) :
    (calculateTree s t o).totalLayers = totalLayers s t := rfl

lemma calculateTree_numberOfLayers (s : StockDimensions) (t : TreeDimensions)
    (o : Option ℝ) :
    (calculateTree s t o).numberOfLayers
      = (usablePieces s t (resolvedCutAngleDegrees s t o)).length := rfl

lemma calculateTree_actualHeight (s : StockDimensions) (t : TreeDimensions)
    (o : Option ℝ) :
    (calculateTree s t o).actualHeight
      = ((usablePieces s t (resolvedCutAngleDegrees s t o)).length : ℚ)
          * s.height := rfl

lemma calculateTree_cutAngleDegrees (s : StockDimensions) (t : TreeDimensions)
    (o : Option ℝ) :
    (calculateTree s t o).cutAngleDegrees = resolvedCutAngleDegrees s t o := rfl

lemma calculateTree_reservedTopPiece (s : StockDimensions) (t : TreeDimensions)
    (o : Option ℝ) :
    (calculateTree s t o).reservedTopPiece
      = reservedTopPieceFor s t (resolvedCutAngleDegrees s t o) := rfl

lemma calculateTree_warnings (s : StockDimensions) (t : TreeDimensions)
    (o : Option ℝ) :
    (calculateTree s t o).warnings = warningsFor s t := rfl

lemma calculateTree_stockMaterialNeeded (s : StockDimensions)
    (t : TreeDimensions) (o : Option ℝ) :
    (calculateTree s t o).stockMaterialNeeded
      = { totalLinearMeters :=
            totalLinearLength s t (resolvedCutAngleDegrees s t o) / 1000
          usableLinearMeters :=
            usableLinearLength s t (resolvedCutAngleDegrees s t o) / 1000
          starPlatformLinearMeters :=
            starPlatformLength s t (resolvedCutAngleDegrees s t o) / 1000
          numberOfStockPieces :=
            numberOfStockPiecesFor s t (resolvedCutAngleDegrees s t o) } := rfl

lemma length_allPieces (s : StockDimensions) (t : TreeDimensions) (a : ℝ) :
    (allPieces s t a).length = (totalLayers s t).toNat := by
  simp [allPieces]

lemma allPieces_getElem (s : StockDimensions) (t : TreeDimensions) (a : ℝ)
    (i : ℕ) (h : i < (allPieces s t a).length) :
    (allPieces s t a)[i] = mkPiece s t a i := by
  simp [allPieces]

lemma allPieces_eq_nil_iff (s : StockDimensions) (t : TreeDimensions) (a : ℝ) :
    allPieces s t a = [] ↔ totalLayers s t ≤ 0 := by
  rw [← List.length_eq_zero, length_allPieces, Int.toNat_eq_zero]

lemma usablePieces_eq_dropLast (s : StockDimensions) (t : TreeDimensions)
    (a : ℝ) :
    usablePieces s t a = (allPieces s t a).dropLast := by
  unfold usablePieces reservedTopPieceFor
  cases h : (allPieces s t a).getLast? with
  | none => rw [List.getLast?_eq_none_iff.mp h]; rfl
  | some p => rfl

lemma length_usablePieces (s : StockDimensions) (t : TreeDimensions) (a : ℝ) :
    (usablePieces s t a).length = (totalLayers s t).toNat - 1 := by
  rw [usablePieces_eq_dropLast, List.length_dropLast, length_allPieces]

lemma usablePieces_getElem (s : StockDimensions) (t : TreeDimensions) (a : ℝ)
    (i : ℕ) (h : i < (usablePieces s t a).length) :
    (usablePieces s t a)[i] = mkPiece s t a i := by
  have hd : i < ((allPieces s t a).dropLast).length := by
    rwa [usablePieces_eq_dropLast] at h
  have hall : i < (allPieces s t a).length := by
    rw [List.length_dropLast] at hd; omega
  have h1 : (usablePieces s t a)[i]
      = ((allPieces s t a).dropLast).get ⟨i, hd⟩ := by
    congr 1
    exact usablePieces_eq_dropLast s t a
  have h2 : ((allPieces s t a).dropLast).get ⟨i, hd⟩
      = (allPieces s t a).get ⟨i, hall⟩ :=
    List.getElem_dropLast _ _ _
  rw [h1, h2]
  exact allPieces_getElem s t a i hall

lemma foldl_add_length (l : List TreePiece) (init : ℚ) :
    l.foldl (fun sum piece => sum + piece.length) init
      = init + (l.map TreePiece.length).sum := by
  induction l generalizing init with
  | nil => simp
  | cons p l ih => simp [ih, add_assoc]

lemma usableLinearLength_eq (s : StockDimensions) (t : TreeDimensions)
    (a : ℝ) :
    usableLinearLength s t a
      = ((usablePieces s t a).map TreePiece.length).sum := by
  rw [usableLinearLength, foldl_add_length, zero_add]

lemma totalLinearLength_eq_sum (s : StockDimensions) (t : TreeDimensions)
    (a : ℝ) :
    totalLinearLength s t a = ((allPieces s t a).map TreePiece.length).sum := by
  unfold totalLinearLength starPlatformLength reservedTopPieceFor
  cases h : (allPieces s t a).getLast? with
  | none =>
    rw [usableLinearLength_eq, usablePieces_eq_dropLast,
      List.getLast?_eq_none_iff.mp h]
    simp
  | some p =>
    have hne : allPieces s t a ≠ [] := by
      intro hnil; rw [hnil] at h; cases h
    have hlast : (allPieces s t a).getLast hne = p := by
      rw [List.getLast?_eq_getLast _ hne] at h
      exact Option.some.inj h
    rw [usableLinearLength_eq, usablePieces_eq_dropLast]
    conv_rhs => rw [← List.dropLast_append_getLast hne]
    rw [List.map_append, List.sum_append, hlast]
    simp

lemma map_length_allPieces (s : StockDimensions) (t : TreeDimensions)
    (a : ℝ) :
    (allPieces s t a).map TreePiece.length
      = (List.range (totalLayers s t).toNat).map (widthAtLayer s t) := by
  rw [allPieces, List.map_map]
  rfl

lemma totalLayers_pos_of_mem (s : StockDimensions) (t : TreeDimensions)
    {i : ℕ} (hi : i < (totalLayers s t).toNat) : 1 ≤ totalLayers s t := by
  omega

lemma taperHeight_pos (s : StockDimensions) (t : TreeDimensions)
    (hh : 0 < s.height) (hL : 1 ≤ totalLayers s t) :
    0 < taperHeight s t := by
  rw [taperHeight]
  have : (1 : ℚ) ≤ (totalLayers s t : ℚ) := by exact_mod_cast hL
  nlinarith

lemma taperHeight_cast (s : StockDimensions) (t : TreeDimensions)
    (hL : 0 ≤ totalLayers s t) :
    taperHeight s t = ((totalLayers s t).toNat : ℚ) * s.height := by
  rw [taperHeight]
  congr 1
  exact_mod_cast (Int.toNat_of_nonneg hL).symm

lemma widthAtLayer_zero (s : StockDimensions) (t : TreeDimensions)
    (hT : taperHeight s t ≠ 0) : widthAtLayer s t 0 = t.baseWidth := by
  simp [widthAtLayer, hT]

lemma widthAtLayer_strict_anti (s : StockDimensions) (t : TreeDimensions)
    (hW : 0 < t.baseWidth) (hh : 0 < s.height) {i j : ℕ} (hij : i < j)
    (hj : j < (totalLayers s t).toNat) :
    widthAtLayer s t j < widthAtLayer s t i := by
  have hL : 1 ≤ totalLayers s t := totalLayers_pos_of_mem s t hj
  have hT : 0 < taperHeight s t := taperHeight_pos s t hh hL
  rw [widthAtLayer, widthAtLayer, if_neg (ne_of_gt hT), if_neg (ne_of_gt hT)]
  have hcast : (i : ℚ) < (j : ℚ) := by exact_mod_cast hij
  have h1 : (i : ℚ) * s.height < (j : ℚ) * s.height := by nlinarith
  have hTi : (0 : ℚ) < (taperHeight s t)⁻¹ := inv_pos.mpr hT
  rw [div_eq_mul_inv, div_eq_mul_inv]
  nlinarith [mul_lt_mul_of_pos_right h1 hTi]

lemma widthAtLayer_anti (s : StockDimensions) (t : TreeDimensions)
    (hW : 0 ≤ t.baseWidth) (hh : 0 < s.height) {i j : ℕ} (hij : i ≤ j)
    (hj : j < (totalLayers s t).toNat) :
    widthAtLayer s t j ≤ widthAtLayer s t i := by
  rcases eq_or_lt_of_le hW with hW0 | hWpos
  · have hz : ∀ k : ℕ, widthAtLayer s t k = 0 := by
      intro k
      rw [widthAtLayer, ← hW0]
      split <;> simp
    rw [hz i, hz j]
  · rcases eq_or_lt_of_le hij with rfl | hlt
    · exact le_refl _
    · exact (widthAtLayer_strict_anti s t hWpos hh hlt hj).le

lemma widthAtLayer_nonneg (s : StockDimensions) (t : TreeDimensions)
    (hW : 0 ≤ t.baseWidth) (hh : 0 < s.height) {i : ℕ}
    (hi : i < (totalLayers s t).toNat) : 0 ≤ widthAtLayer s t i := by
  have hL : 1 ≤ totalLayers s t := totalLayers_pos_of_mem s t hi
  have hT : 0 < taperHeight s t := taperHeight_pos s t hh hL
  rw [widthAtLayer, if_neg (ne_of_gt hT)]
  have hfact : (i : ℚ) * s.height < taperHeight s t := by
    rw [taperHeight_cast s t (by omega)]
    have hic : (i : ℚ) < ((totalLayers s t).toNat : ℚ) := by exact_mod_cast hi
    nlinarith
  have hlt1 : (i : ℚ) * s.height / taperHeight s t < 1 :=
    (div_lt_one hT).mpr hfact
  exact mul_nonneg hW (by linarith)

lemma usableLinearLength_indep (s : StockDimensions) (t : TreeDimensions)
    (a b : ℝ) : usableLinearLength s t a = usableLinearLength s t b := by
  rw [usableLinearLength_eq, usableLinearLength_eq,
    usablePieces_eq_dropLast, usablePieces_eq_dropLast,
    List.map_dropLast, List.map_dropLast,
    map_length_allPieces, map_length_allPieces]

lemma totalLinearLength_indep (s : StockDimensions) (t : TreeDimensions)
    (a b : ℝ) : totalLinearLength s t a = totalLinearLength s t b := by
  rw [totalLinearLength_eq_sum, totalLinearLength_eq_sum,
    map_length_allPieces, map_length_allPieces]

lemma starPlatformLength_indep (s : StockDimensions) (t : TreeDimensions)
    (a b : ℝ) : starPlatformLength s t a = starPlatformLength s t b := by
  have h1 := totalLinearLength_indep s t a b
  have h2 := usableLinearLength_indep s t a b
  rw [totalLinearLength, totalLinearLength] at h1
  linarith

lemma numberOfStockPiecesFor_indep (s : StockDimensions) (t : TreeDimensions)
    (a b : ℝ) :
    numberOfStockPiecesFor s t a = numberOfStockPiecesFor s t b := by
  rw [numberOfStockPiecesFor, numberOfStockPiecesFor,
    totalLinearLength_indep s t a b]

lemma totalLinearLength_nonneg (s : StockDimensions) (t : TreeDimensions)
    (a : ℝ) (hW : 0 ≤ t.baseWidth) (hh : 0 < s.height) :
    0 ≤ totalLinearLength s t a := by
  rw [totalLinearLength_eq_sum, map_length_allPieces]
  apply List.sum_nonneg
  intro x hx
  rcases List.mem_map.mp hx with ⟨i, hi, rfl⟩
  exact widthAtLayer_nonneg s t hW hh (List.mem_range.mp hi)

lemma calculateTree_totalLinearMeters (s : StockDimensions)
    (t : TreeDimensions) (o : Option ℝ) :
    (calculateTree s t o).stockMaterialNeeded.totalLinearMeters
      = totalLinearLength s t (resolvedCutAngleDegrees s t o) / 1000 := rfl

lemma calculateTree_numberOfStockPieces (s : StockDimensions)
    (t : TreeDimensions) (o : Option ℝ) :
    (calculateTree s t o).stockMaterialNeeded.numberOfStockPieces
      = numberOfStockPiecesFor s t (resolvedCutAngleDegrees s t o) := rfl

lemma getLast_allPieces (s : StockDimensions) (t : TreeDimensions) (a : ℝ)
    (hne : allPieces s t a ≠ []) :
    (allPieces s t a).getLast hne
      = mkPiece s t a ((totalLayers s t).toNat - 1) := by
  rw [List.getLast_eq_getElem]
  have hlt : (allPieces s t a).length - 1 < (allPieces s t a).length := by
    have hpos : 0 < (allPieces s t a).length := List.length_pos.mpr hne
    omega
  rw [allPieces_getElem s t a _ hlt, length_allPieces]

lemma reservedTopPieceFor_eq (s : StockDimensions) (t : TreeDimensions)
    (a : ℝ) (hne : allPieces s t a ≠ []) :
    reservedTopPieceFor s t a
      = some (mkPiece s t a ((totalLayers s t).toNat - 1)) := by
  rw [reservedTopPieceFor, List.getLast?_eq_getLast _ hne,
    getLast_allPieces s t a hne]

/-! ### Elementary tangent bounds, used to locate the sample scenario's
cut angle numerically -/

lemma tan_lt_quad {x : ℝ} (hx : 0 < x) (hx1 : x ≤ 1) :
    Real.tan x < x / (1 - x ^ 2 / 2) := by
  have hcos : 1 - x ^ 2 / 2 < Real.cos x :=
    Real.one_sub_sq_div_two_lt_cos (ne_of_gt hx)
  have hden : 0 < 1 - x ^ 2 / 2 := by nlinarith
  have hsin : Real.sin x < x := Real.sin_lt hx
  have hsin_pos : 0 < Real.sin x := by
    apply Real.sin_pos_of_pos_of_lt_pi hx
    have := Real.pi_gt_d6
    linarith
  rw [Real.tan_eq_sin_div_cos]
  calc Real.sin x / Real.cos x < Real.sin x / (1 - x ^ 2 / 2) :=
        div_lt_div_of_pos_left hsin_pos hden hcos
    _ < x / (1 - x ^ 2 / 2) := div_lt_div_of_pos_right hsin hden

lemma tan_double_lt {x b : ℝ} (ht : 0 < Real.tan x) (htb : Real.tan x < b)
    (hb : b < 1) :
    Real.tan (2 * x) < 2 * b / (1 - b ^ 2) := by
  rw [Real.tan_two_mul]
  have h1 : 0 < 1 - Real.tan x ^ 2 := by nlinarith
  have h2 : 0 < 1 - b ^ 2 := by nlinarith
  rw [div_lt_div_iff₀ h1 h2]
  nlinarith [mul_pos (sub_pos.mpr htb)
    (show 0 < 1 + Real.tan x * b by nlinarith)]

lemma tan_double_gt {x c : ℝ} (hc : 0 ≤ c) (hct : c < Real.tan x)
    (ht1 : Real.tan x < 1) :
    2 * c / (1 - c ^ 2) < Real.tan (2 * x) := by
  rw [Real.tan_two_mul]
  have h1 : 0 < 1 - Real.tan x ^ 2 := by nlinarith
  have h2 : 0 < 1 - c ^ 2 := by nlinarith
  rw [div_lt_div_iff₀ h2 h1]
  nlinarith [mul_pos (sub_pos.mpr hct)
    (show 0 < 1 + Real.tan x * c by nlinarith)]

lemma arctan_35_12_upper : Real.arctan (35 / 12) < 71.13 * Real.pi / 180 := by
  have hpl := Real.pi_gt_d6
  have hpu := Real.pi_lt_d6
  have hp0 : (0 : ℝ) < Real.pi := by linarith
  set q : ℝ := 18.87 * Real.pi / 720 with hq
  have hq_pos : 0 < q := by rw [hq]; positivity
  have hqU : q ≤ 0.0823360 := by rw [hq]; nlinarith
  have hq1 : q ≤ 1 := by linarith
  have t1 : Real.tan q < q / (1 - q ^ 2 / 2) := tan_lt_quad hq_pos hq1
  have hden : 0 < 1 - q ^ 2 / 2 := by nlinarith
  have t1b : Real.tan q < 0.0827 := by
    have hlt : q / (1 - q ^ 2 / 2) < 0.0827 := by
      rw [div_lt_iff₀ hden]
      nlinarith [mul_le_mul hqU hqU hq_pos.le (by norm_num : (0:ℝ) ≤ 0.0823360)]
    linarith
  have tq_pos : 0 < Real.tan q :=
    Real.tan_pos_of_pos_of_lt_pi_div_two hq_pos (by nlinarith)
  have t2 : Real.tan (2 * q) < 2 * 0.0827 / (1 - 0.0827 ^ 2) :=
    tan_double_lt tq_pos t1b (by norm_num)
  have t2b : Real.tan (2 * q) < 0.1666 := by
    have hc : (2 * 0.0827 / (1 - 0.0827 ^ 2) : ℝ) < 0.1666 := by norm_num
    linarith
  have t2q_pos : 0 < Real.tan (2 * q) :=
    Real.tan_pos_of_pos_of_lt_pi_div_two (by linarith) (by nlinarith)
  have t3 : Real.tan (2 * (2 * q)) < 2 * 0.1666 / (1 - 0.1666 ^ 2) :=
    tan_double_lt t2q_pos t2b (by norm_num)
  have t3b : Real.tan (2 * (2 * q)) < 12 / 35 := by
    have hc : (2 * 0.1666 / (1 - 0.1666 ^ 2) : ℝ) < 12 / 35 := by norm_num
    linarith
  have hs : 2 * (2 * q) = 18.87 * Real.pi / 180 := by rw [hq]; ring
  have harc : 18.87 * Real.pi / 180 < Real.arctan (12 / 35) := by
    rw [hs] at t3b
    have hmono := Real.arctan_strictMono t3b
    rwa [Real.arctan_tan (by linarith) (by linarith)] at hmono
  have hinv : Real.arctan ((35 : ℝ) / 12)
      = Real.pi / 2 - Real.arctan (12 / 35) := by
    have h := Real.arctan_inv_of_pos (show (0 : ℝ) < 12 / 35 by norm_num)
    rw [show ((12 : ℝ) / 35)⁻¹ = 35 / 12 by norm_num] at h
    exact h
  rw [hinv]
  linarith

lemma arctan_35_12_lower : 71 * Real.pi / 180 < Real.arctan (35 / 12) := by
  have hpl := Real.pi_gt_d6
  have hpu := Real.pi_lt_d6
  have hp0 : (0 : ℝ) < Real.pi := by linarith
  set w : ℝ := 19 * Real.pi / 720 with hw
  have hw_pos : 0 < w := by rw [hw]; positivity
  have hwL : 0.0829031 ≤ w := by rw [hw]; nlinarith
  have hwU : w ≤ 0.0829032 := by rw [hw]; nlinarith
  have hw_half : w < Real.pi / 2 := by linarith
  have t1 : w < Real.tan w := Real.lt_tan hw_pos hw_half
  have t1b : (0.0829031 : ℝ) < Real.tan w := by linarith
  have t1q : Real.tan w < w / (1 - w ^ 2 / 2) := tan_lt_quad hw_pos (by linarith)
  have hden : 0 < 1 - w ^ 2 / 2 := by nlinarith
  have t1U : Real.tan w < 1 := by
    have hlt : w / (1 - w ^ 2 / 2) < 1 := by
      rw [div_lt_one hden]
      nlinarith [mul_le_mul hwU hwU hw_pos.le (by norm_num : (0:ℝ) ≤ 0.0829032)]
    linarith
  have t2 : 2 * 0.0829031 / (1 - 0.0829031 ^ 2) < Real.tan (2 * w) :=
    tan_double_gt (by norm_num) t1b t1U
  have t2b : (0.166953 : ℝ) < Real.tan (2 * w) := by
    have hc : (0.166953 : ℝ) < 2 * 0.0829031 / (1 - 0.0829031 ^ 2) := by norm_num
    linarith
  have t2q : Real.tan (2 * w) < 2 * w / (1 - (2 * w) ^ 2 / 2) :=
    tan_lt_quad (by linarith) (by linarith)
  have hden2 : 0 < 1 - (2 * w) ^ 2 / 2 := by nlinarith
  have t2U : Real.tan (2 * w) < 1 := by
    have hlt : 2 * w / (1 - (2 * w) ^ 2 / 2) < 1 := by
      rw [div_lt_one hden2]
      nlinarith [mul_le_mul hwU hwU hw_pos.le (by norm_num : (0:ℝ) ≤ 0.0829032)]
    linarith
  have t3 : 2 * 0.166953 / (1 - 0.166953 ^ 2) < Real.tan (2 * (2 * w)) :=
    tan_double_gt (by norm_num) t2b t2U
  have t3b : (12 : ℝ) / 35 < Real.tan (2 * (2 * w)) := by
    have hc : (12 : ℝ) / 35 < 2 * 0.166953 / (1 - 0.166953 ^ 2) := by norm_num
    linarith
  have hu : 2 * (2 * w) = 19 * Real.pi / 180 := by rw [hw]; ring
  have harc : Real.arctan (12 / 35) < 19 * Real.pi / 180 := by
    rw [hu] at t3b
    have hmono := Real.arctan_strictMono t3b
    rwa [Real.arctan_tan (by linarith) (by linarith)] at hmono
  have hinv : Real.arctan ((35 : ℝ) / 12)
      = Real.pi / 2 - Real.arctan (12 / 35) := by
    have h := Real.arctan_inv_of_pos (show (0 : ℝ) < 12 / 35 by norm_num)
    rw [show ((12 : ℝ) / 35)⁻¹ = 35 / 12 by norm_num] at h
    exact h
  rw [hinv]
  linarith

/-! ### The sample scenario -/

lemma sample_totalLayers : totalLayers sampleStock sampleTree = 25 := by
  rw [totalLayers, Int.floor_eq_iff]
  norm_num [sampleStock, sampleTree]

lemma sample_taperHeight : taperHeight sampleStock sampleTree = 875 := by
  rw [taperHeight, sample_totalLayers]
  norm_num [sampleStock]

lemma sample_cutAngleDegrees :
    (calculateTree sampleStock sampleTree none).cutAngleDegrees
      = Real.arctan (35 / 12) * 180 / Real.pi := by
  rw [calculateTree_cutAngleDegrees]
  show autoCutAngleDegrees sampleStock sampleTree = _
  rw [autoCutAngleDegrees, if_neg]
  · rw [sample_taperHeight]
    norm_num [sampleTree]
  · rw [sample_taperHeight]
    norm_num [sampleTree]

/-! ### The claims -/

/-- C1, counterexample: for stock `{depth:90, height:35, length:2400}` and
tree `{baseWidth:600, targetHeight:900}` with no override, the computed cut
angle `atan(2*875/600)` in degrees is provably below 71.13°, so it is not
approximately 71.18° (it is not within 0.05° of 71.18; the true value is
about 71.08°). -/
theorem claim1_counterexample :
    (calculateTree sampleStock sampleTree none).cutAngleDegrees < 71.13 ∧
    ¬ |(calculateTree sampleStock sampleTree none).cutAngleDegrees - 71.18|
        < 0.05 := by
  have hup := arctan_35_12_upper
  have hpi : (0 : ℝ) < Real.pi := Real.pi_pos
  rw [sample_cutAngleDegrees]
  have hdeg : Real.arctan (35 / 12) * 180 / Real.pi < 71.13 := by
    rw [div_lt_iff₀ hpi]
    nlinarith
  refine ⟨hdeg, ?_⟩
  intro habs
  rw [abs_lt] at habs
  linarith [habs.1]

/-- C1, amended: for the concrete input stock `{depth:90, height:35,
length:2400}` and tree `{baseWidth:600, targetHeight:900}` with no manual
override, `calculateTree` returns `totalLayers = 25`, `taperHeight =
875` mm, a computed cut angle of `atan(2*875/600)` in degrees
(approximately 71.08: between 71 and 71.13 degrees), exactly 24 usable
pieces after reserving the top layer, and `actualHeight = 24*35 = 840`
mm. -/
theorem claim1_concrete_scenario :
    (calculateTree sampleStock sampleTree none).totalLayers = 25 ∧
    taperHeight sampleStock sampleTree = 875 ∧
    (calculateTree sampleStock sampleTree none).cutAngleDegrees
      = Real.arctan (2 * 875 / 600) * 180 / Real.pi ∧
    71 < (calculateTree sampleStock sampleTree none).cutAngleDegrees ∧
    (calculateTree sampleStock sampleTree none).cutAngleDegrees < 71.13 ∧
    (calculateTree sampleStock sampleTree none).pieces.length = 24 ∧
    (calculateTree sampleStock sampleTree none).actualHeight = 840 := by
  have hpi : (0 : ℝ) < Real.pi := Real.pi_pos
  have hang : (Real.arctan (2 * 875 / 600) : ℝ) = Real.arctan (35 / 12) := by
    norm_num
  refine ⟨?_, sample_taperHeight, ?_, ?_, ?_, ?_, ?_⟩
  · rw [calculateTree_totalLayers, sample_totalLayers]
  · rw [sample_cutAngleDegrees, hang]
  · rw [sample_cutAngleDegrees]
    rw [lt_div_iff₀ hpi]
    nlinarith [arctan_35_12_lower]
  · rw [sample_cutAngleDegrees]
    rw [div_lt_iff₀ hpi]
    nlinarith [arctan_35_12_upper]
  · rw [calculateTree_pieces, length_usablePieces, sample_totalLayers]
    rfl
  · rw [calculateTree_actualHeight, length_usablePieces, sample_totalLayers]
    rw [show Int.toNat 25 = 25 from rfl]
    norm_num [sampleStock]

/-- C2: for every stock with positive height and every tree with positive
targetHeight, `calculateTree` computes `totalLayers =
floor(targetHeight / stock.height)` exactly (never negative), and
`taperHeight = totalLayers * stock.height` is at most `targetHeight`. -/
theorem claim2_totalLayers_floor (s : StockDimensions) (t : TreeDimensions)
    (o : Option ℝ) (hh : 0 < s.height) (ht : 0 < t.targetHeight) :
    (calculateTree s t o).totalLayers = ⌊t.targetHeight / s.height⌋ ∧
    0 ≤ (calculateTree s t o).totalLayers ∧
    taperHeight s t = ((calculateTree s t o).totalLayers : ℚ) * s.height ∧
    taperHeight s t ≤ t.targetHeight := by
  refine ⟨rfl, ?_, rfl, ?_⟩
  · rw [calculateTree_totalLayers, totalLayers]
    exact Int.floor_nonneg.mpr (div_pos ht hh).le
  · rw [taperHeight, totalLayers]
    have h1 : ((⌊t.targetHeight / s.height⌋ : ℚ)) ≤ t.targetHeight / s.height :=
      Int.floor_le _
    have h2 := mul_le_mul_of_nonneg_right h1 hh.le
    rwa [div_mul_cancel₀ _ (ne_of_gt hh)] at h2

/-- Witness for C2 at the sample inputs. -/
theorem claim2_witness :
    (0 : ℚ) < 35 ∧ (0 : ℚ) < 900 ∧
    ((calculateTree sampleStock sampleTree none).totalLayers
        = ⌊(900 : ℚ) / 35⌋ ∧
      0 ≤ (calculateTree sampleStock sampleTree none).totalLayers ∧
      taperHeight sampleStock sampleTree
        = ((calculateTree sampleStock sampleTree none).totalLayers : ℚ) * 35 ∧
      taperHeight sampleStock sampleTree ≤ 900) :=
  ⟨by norm_num, by norm_num,
    claim2_totalLayers_floor sampleStock sampleTree none
      (by norm_num [sampleStock]) (by norm_num [sampleTree])⟩

/-- C3: with positive baseWidth and positive stock height, the returned
pieces' lengths strictly decrease as the index (= layerNumber) increases,
and when `taperHeight > 0` the bottom piece has layerNumber 0 and length
exactly `tree.baseWidth`. -/
theorem claim3_monotone_taper (s : StockDimensions) (t : TreeDimensions)
    (o : Option ℝ) (hW : 0 < t.baseWidth) (hh : 0 < s.height) :
    (∀ i j (hi : i < (calculateTree s t o).pieces.length)
        (hj : j < (calculateTree s t o).pieces.length), i < j →
        (((calculateTree s t o).pieces).get ⟨j, hj⟩).length
          < (((calculateTree s t o).pieces).get ⟨i, hi⟩).length) ∧
    (0 < taperHeight s t →
      ∀ h0 : 0 < (calculateTree s t o).pieces.length,
        ((((calculateTree s t o).pieces).get ⟨0, h0⟩).length = t.baseWidth ∧
          (((calculateTree s t o).pieces).get ⟨0, h0⟩).layerNumber = 0)) := by
  constructor
  · intro i j hi hj hij
    have hi' : i < (usablePieces s t (resolvedCutAngleDegrees s t o)).length :=
      hi
    have hj' : j < (usablePieces s t (resolvedCutAngleDegrees s t o)).length :=
      hj
    have ei : ((calculateTree s t o).pieces).get ⟨i, hi⟩
        = mkPiece s t (resolvedCutAngleDegrees s t o) i :=
      usablePieces_getElem s t _ i hi'
    have ej : ((calculateTree s t o).pieces).get ⟨j, hj⟩
        = mkPiece s t (resolvedCutAngleDegrees s t o) j :=
      usablePieces_getElem s t _ j hj'
    rw [ei, ej]
    show widthAtLayer s t j < widthAtLayer s t i
    apply widthAtLayer_strict_anti s t hW hh hij
    have hlen := length_usablePieces s t (resolvedCutAngleDegrees s t o)
    rw [hlen] at hj'
    omega
  · intro hT h0
    have h0' : 0 < (usablePieces s t (resolvedCutAngleDegrees s t o)).length :=
      h0
    have e0 : ((calculateTree s t o).pieces).get ⟨0, h0⟩
        = mkPiece s t (resolvedCutAngleDegrees s t o) 0 :=
      usablePieces_getElem s t _ 0 h0'
    rw [e0]
    exact ⟨widthAtLayer_zero s t (ne_of_gt hT), rfl⟩

/-- Witness for C3 at the sample inputs: the bottom usable piece of the
sample calculation has length 600 and layerNumber 0. -/
theorem claim3_witness :
    (0 : ℚ) < 600 ∧ (0 : ℚ) < 35 ∧ 0 < taperHeight sampleStock sampleTree ∧
    ((((calculateTree sampleStock sampleTree none).pieces).get
        ⟨0, by rw [calculateTree_pieces, length_usablePieces,
                sample_totalLayers]; decide⟩).length = 600 ∧
      (((calculateTree sampleStock sampleTree none).pieces).get
        ⟨0, by rw [calculateTree_pieces, length_usablePieces,
                sample_totalLayers]; decide⟩).layerNumber = 0) := by
  refine ⟨by norm_num, by norm_num, by rw [sample_taperHeight]; norm_num, ?_⟩
  exact (claim3_monotone_taper sampleStock sampleTree none
      (by norm_num [sampleTree]) (by norm_num [sampleStock])).2
    (by rw [sample_taperHeight]; norm_num)
    (by rw [calculateTree_pieces, length_usablePieces, sample_totalLayers]
        decide)

/-- C4: whenever at least one layer is produced, the reserved topper
platform piece is the layer with the highest layerNumber of the full
pre-reservation set, its length is the smallest of all computed layers, it
is removed from the returned pieces sequence (which is the pre-reservation
set minus its last element), and totalLinearMeters still sums all computed
layers including it; with zero layers there is no reserved piece and the
usable sequence is empty.  Positivity of the stock height and
non-negativity of the base width (the spec's documented input domain)
are assumed for the minimality part. -/
theorem claim4_reserved_topper (s : StockDimensions) (t : TreeDimensions)
    (o : Option ℝ) (hh : 0 < s.height) (hW : 0 ≤ t.baseWidth) :
    (1 ≤ totalLayers s t →
      ∃ p, (calculateTree s t o).reservedTopPiece = some p ∧
        p.layerNumber = (totalLayers s t).toNat - 1 ∧
        (∀ q ∈ allPieces s t (resolvedCutAngleDegrees s t o),
            q.layerNumber ≤ p.layerNumber) ∧
        (∀ q ∈ allPieces s t (resolvedCutAngleDegrees s t o),
            p.length ≤ q.length) ∧
        (calculateTree s t o).pieces
          = (allPieces s t (resolvedCutAngleDegrees s t o)).dropLast ∧
        (calculateTree s t o).stockMaterialNeeded.totalLinearMeters
          = ((allPieces s t (resolvedCutAngleDegrees s t o)).map
              TreePiece.length).sum / 1000) ∧
    (totalLayers s t < 1 →
      (calculateTree s t o).reservedTopPiece = none ∧
      (calculateTree s t o).pieces = []) := by
  constructor
  · intro hL
    have hne : allPieces s t (resolvedCutAngleDegrees s t o) ≠ [] := by
      rw [Ne, allPieces_eq_nil_iff]
      omega
    refine ⟨mkPiece s t (resolvedCutAngleDegrees s t o)
        ((totalLayers s t).toNat - 1), ?_, rfl, ?_, ?_, ?_, ?_⟩
    · rw [calculateTree_reservedTopPiece]
      exact reservedTopPieceFor_eq s t _ hne
    · intro q hq
      rcases List.mem_map.mp hq with ⟨i, hi, rfl⟩
      have hilt := List.mem_range.mp hi
      show i ≤ (totalLayers s t).toNat - 1
      omega
    · intro q hq
      rcases List.mem_map.mp hq with ⟨i, hi, rfl⟩
      have hilt := List.mem_range.mp hi
      show widthAtLayer s t ((totalLayers s t).toNat - 1)
        ≤ widthAtLayer s t i
      apply widthAtLayer_anti s t hW hh (by omega)
      omega
    · rw [calculateTree_pieces, usablePieces_eq_dropLast]
    · rw [calculateTree_totalLinearMeters, totalLinearLength_eq_sum]
  · intro hL
    have hnil : allPieces s t (resolvedCutAngleDegrees s t o) = [] := by
      rw [allPieces_eq_nil_iff]
      omega
    constructor
    · rw [calculateTree_reservedTopPiece, reservedTopPieceFor, hnil]
      rfl
    · rw [calculateTree_pieces, usablePieces_eq_dropLast, hnil]
      rfl

/-- Witness for C4 at the sample inputs: the reserved piece exists and is
layer 24, the topmost of the 25 computed layers. -/
theorem claim4_witness :
    (0 : ℚ) < 35 ∧ (0 : ℚ) ≤ 600 ∧ 1 ≤ totalLayers sampleStock sampleTree ∧
    ∃ p, (calculateTree sampleStock sampleTree none).reservedTopPiece
        = some p ∧ p.layerNumber = 24 := by
  refine ⟨by norm_num, by norm_num, by rw [sample_totalLayers]; norm_num, ?_⟩
  obtain ⟨p, hp1, hp2, -, -, -, -⟩ :=
    (claim4_reserved_topper sampleStock sampleTree none
        (by norm_num [sampleStock]) (by norm_num [sampleTree])).1
      (by rw [sample_totalLayers]; norm_num)
  refine ⟨p, hp1, ?_⟩
  rw [hp2, sample_totalLayers]
  decide

lemma usable_map_indep {α : Type} (s : StockDimensions) (t : TreeDimensions)
    (a b : ℝ) (f : TreePiece → α)
    (hf : ∀ i : ℕ, f (mkPiece s t a i) = f (mkPiece s t b i)) :
    (usablePieces s t a).map f = (usablePieces s t b).map f := by
  rw [usablePieces_eq_dropLast, usablePieces_eq_dropLast, List.map_dropLast,
    List.map_dropLast, allPieces, allPieces, List.map_map, List.map_map]
  have hcomp : (f ∘ mkPiece s t a) = (f ∘ mkPiece s t b) :=
    funext fun i => hf i
  rw [hcomp]

/-- C5: with identical stock and tree inputs, the calculation with a
manual angle override differs from the one without only in
`cutAngleDegrees` and in each piece's `cutAngle` field: the override is
used verbatim as the single shared cut angle, and every piece's length,
layerNumber, depth and height, the layer counts, actualHeight, warnings
and all material totals are unchanged. -/
theorem claim5_override_frame (s : StockDimensions) (t : TreeDimensions)
    (a : ℝ) :
    (calculateTree s t (some a)).cutAngleDegrees = a ∧
    (∀ p ∈ (calculateTree s t (some a)).pieces, p.cutAngle = a) ∧
    (∀ p, (calculateTree s t (some a)).reservedTopPiece = some p →
        p.cutAngle = a) ∧
    (calculateTree s t (some a)).pieces.map TreePiece.length
      = (calculateTree s t none).pieces.map TreePiece.length ∧
    (calculateTree s t (some a)).pieces.map TreePiece.layerNumber
      = (calculateTree s t none).pieces.map TreePiece.layerNumber ∧
    (calculateTree s t (some a)).pieces.map TreePiece.depth
      = (calculateTree s t none).pieces.map TreePiece.depth ∧
    (calculateTree s t (some a)).pieces.map TreePiece.height
      = (calculateTree s t none).pieces.map TreePiece.height ∧
    (calculateTree s t (some a)).numberOfLayers
      = (calculateTree s t none).numberOfLayers ∧
    (calculateTree s t (some a)).totalLayers
      = (calculateTree s t none).totalLayers ∧
    (calculateTree s t (some a)).actualHeight
      = (calculateTree s t none).actualHeight ∧
    (calculateTree s t (some a)).warnings
      = (calculateTree s t none).warnings ∧
    (calculateTree s t (some a)).stockMaterialNeeded
      = (calculateTree s t none).stockMaterialNeeded ∧
    Option.map TreePiece.length
        (calculateTree s t (some a)).reservedTopPiece
      = Option.map TreePiece.length
        (calculateTree s t none).reservedTopPiece := by
  refine ⟨rfl, ?_, ?_, ?_, ?_, ?_, ?_, ?_, rfl, ?_, rfl, ?_, ?_⟩
  · intro p hp
    have hmem : p ∈ allPieces s t a := by
      rw [calculateTree_pieces, usablePieces_eq_dropLast] at hp
      exact List.dropLast_subset _ hp
    rcases List.mem_map.mp hmem with ⟨i, hi, rfl⟩
    rfl
  · intro p hp
    rw [calculateTree_reservedTopPiece, reservedTopPieceFor] at hp
    have hres : resolvedCutAngleDegrees s t (some a) = a := rfl
    rw [hres] at hp
    have hne : allPieces s t a ≠ [] := by
      intro hnil
      rw [hnil] at hp
      cases hp
    rw [List.getLast?_eq_getLast _ hne] at hp
    have hmem : p ∈ allPieces s t a := by
      rw [← Option.some.inj hp]
      exact List.getLast_mem hne
    rcases List.mem_map.mp hmem with ⟨i, hi, rfl⟩
    rfl
  · exact usable_map_indep s t a _ TreePiece.length fun i => rfl
  · exact usable_map_indep s t a _ TreePiece.layerNumber fun i => rfl
  · exact usable_map_indep s t a _ TreePiece.depth fun i => rfl
  · exact usable_map_indep s t a _ TreePiece.height fun i => rfl
  · rw [calculateTree_numberOfLayers, calculateTree_numberOfLayers,
      length_usablePieces, length_usablePieces]
  · rw [calculateTree_actualHeight, calculateTree_actualHeight,
      length_usablePieces, length_usablePieces]
  · rw [calculateTree_stockMaterialNeeded, calculateTree_stockMaterialNeeded,
      totalLinearLength_indep s t (resolvedCutAngleDegrees s t (some a))
        (resolvedCutAngleDegrees s t none),
      usableLinearLength_indep s t (resolvedCutAngleDegrees s t (some a))
        (resolvedCutAngleDegrees s t none),
      starPlatformLength_indep s t (resolvedCutAngleDegrees s t (some a))
        (resolvedCutAngleDegrees s t none),
      numberOfStockPiecesFor_indep s t (resolvedCutAngleDegrees s t (some a))
        (resolvedCutAngleDegrees s t none)]
  · rw [calculateTree_reservedTopPiece, calculateTree_reservedTopPiece,
      reservedTopPieceFor, reservedTopPieceFor, ← List.getLast?_map,
      ← List.getLast?_map, map_length_allPieces, map_length_allPieces]

/-- C6: with no manual override, a zero taperHeight or zero baseWidth
yields a cut angle of exactly 0 degrees (a defined value, not an error),
and otherwise the angle is `atan(2 * taperHeight / baseWidth)` converted
to degrees. -/
theorem claim6_degenerate_angle (s : StockDimensions) (t : TreeDimensions) :
    ((taperHeight s t = 0 ∨ t.baseWidth = 0) →
      (calculateTree s t none).cutAngleDegrees = 0) ∧
    (taperHeight s t ≠ 0 → t.baseWidth ≠ 0 →
      (calculateTree s t none).cutAngleDegrees
        = Real.arctan (2 * (taperHeight s t : ℝ) / (t.baseWidth : ℝ))
            * 180 / Real.pi) := by
  constructor
  · intro h
    rw [calculateTree_cutAngleDegrees]
    show autoCutAngleDegrees s t = 0
    rw [autoCutAngleDegrees, if_pos h]
  · intro h1 h2
    rw [calculateTree_cutAngleDegrees]
    show autoCutAngleDegrees s t = _
    rw [autoCutAngleDegrees, if_neg (by tauto)]

/-- Witness for C6: a zero base width resolves to a 0 degree angle. -/
theorem claim6_witness :
    (calculateTree ⟨90, 35, 2400⟩ ⟨0, 900⟩ none).cutAngleDegrees = 0 :=
  (claim6_degenerate_angle ⟨90, 35, 2400⟩ ⟨0, 900⟩).1 (Or.inr rfl)

/-- C7, counterexample: at the finite numeric input stock
`{depth:90, height:0, length:2400}`, tree `{baseWidth:600,
targetHeight:900}`, the source's loop bound `Math.floor(900/0)` is
`+Infinity` and `calculateTree` never returns a value, so it does not
return a structurally valid TreeCalculation for every finite numeric
input as claimed. -/
theorem claim7_counterexample :
    calculateTreeJS ⟨90, 0, 2400⟩ ⟨600, 900⟩ none = none := by
  rw [calculateTreeJS, if_pos]
  exact ⟨rfl, by norm_num⟩

/-- C7, amended: for every finite numeric input with positive
`stock.height` (on which the piece loop terminates), `calculateTree`
returns a structurally valid TreeCalculation without throwing
(numberOfLayers counts the returned pieces and actualHeight is that count
times the stock height); the warnings sequence is non-empty exactly when
`totalLayers < 2`, in particular whenever
`targetHeight < 2 * stock.height`; and with `totalLayers < 2` the usable
sequence is empty, a valid non-error result. -/
theorem claim7_total_and_warnings (s : StockDimensions) (t : TreeDimensions)
    (o : Option ℝ) (hh : 0 < s.height) :
    calculateTreeJS s t o = some (calculateTree s t o) ∧
    ((calculateTree s t o).warnings ≠ []
      ↔ (calculateTree s t o).totalLayers < 2) ∧
    (t.targetHeight < 2 * s.height →
      (calculateTree s t o).warnings ≠ []) ∧
    (calculateTree s t o).numberOfLayers
      = (calculateTree s t o).pieces.length ∧
    (calculateTree s t o).actualHeight
      = ((calculateTree s t o).numberOfLayers : ℚ) * s.height ∧
    ((calculateTree s t o).totalLayers < 2 →
      (calculateTree s t o).pieces = []) := by
  have hiff : (calculateTree s t o).warnings ≠ []
      ↔ (calculateTree s t o).totalLayers < 2 := by
    rw [calculateTree_warnings, calculateTree_totalLayers, warningsFor]
    by_cases h : totalLayers s t < 2 <;> simp [h, topperWarning]
  refine ⟨?_, hiff, ?_, rfl, rfl, ?_⟩
  · rw [calculateTreeJS, if_neg]
    intro hcon
    exact absurd hcon.1 (ne_of_gt hh)
  · intro ht
    rw [hiff, calculateTree_totalLayers, totalLayers]
    have hq : t.targetHeight / s.height < ((2 : ℤ) : ℚ) := by
      rw [div_lt_iff₀ hh]
      push_cast
      linarith
    exact Int.floor_lt.mpr hq
  · intro h2
    rw [calculateTree_totalLayers] at h2
    rw [calculateTree_pieces, usablePieces_eq_dropLast,
      ← List.length_eq_zero, List.length_dropLast, length_allPieces]
    omega

/-- Witness for C7: with stock height 35 the calculation returns a value,
and with target height 50 the warning list is non-empty. -/
theorem claim7_witness :
    (0 : ℚ) < 35 ∧ (50 : ℚ) < 2 * 35 ∧
    calculateTreeJS sampleStock ⟨600, 50⟩ none
      = some (calculateTree sampleStock ⟨600, 50⟩ none) ∧
    (calculateTree sampleStock ⟨600, 50⟩ none).warnings ≠ [] := by
  have h := claim7_total_and_warnings sampleStock ⟨600, 50⟩ none
    (by norm_num [sampleStock])
  exact ⟨by norm_num, by norm_num, h.1, h.2.2.1 (by norm_num [sampleStock])⟩

/-- C8: with positive stock length (and the documented input domain:
positive stock height, non-negative base width), `numberOfStockPieces`
equals the ceiling of the total linear length divided by the stock
length, and is 0 exactly when the total linear length is 0. -/
theorem claim8_stock_pieces (s : StockDimensions) (t : TreeDimensions)
    (o : Option ℝ) (hl : 0 < s.length) (hh : 0 < s.height)
    (hW : 0 ≤ t.baseWidth) :
    (calculateTree s t o).stockMaterialNeeded.numberOfStockPieces
      = ⌈totalLinearLength s t (resolvedCutAngleDegrees s t o)
          / s.length⌉ ∧
    ((calculateTree s t o).stockMaterialNeeded.numberOfStockPieces = 0
      ↔ totalLinearLength s t (resolvedCutAngleDegrees s t o) = 0) ∧
    (calculateTree s t o).stockMaterialNeeded.totalLinearMeters
      = totalLinearLength s t (resolvedCutAngleDegrees s t o) / 1000 := by
  have hT0 : 0 ≤ totalLinearLength s t (resolvedCutAngleDegrees s t o) :=
    totalLinearLength_nonneg s t _ hW hh
  refine ⟨?_, ?_, rfl⟩
  · rw [calculateTree_numberOfStockPieces, numberOfStockPiecesFor]
    by_cases h : totalLinearLength s t (resolvedCutAngleDegrees s t o) = 0
    · rw [if_pos h, h, zero_div, Int.ceil_zero]
    · rw [if_neg h]
  · rw [calculateTree_numberOfStockPieces, numberOfStockPiecesFor]
    constructor
    · intro h
      by_contra hne
      rw [if_neg hne] at h
      have hTpos : 0 < totalLinearLength s t (resolvedCutAngleDegrees s t o) :=
        lt_of_le_of_ne hT0 (Ne.symm hne)
      have hdiv : 0 < totalLinearLength s t (resolvedCutAngleDegrees s t o)
          / s.length := div_pos hTpos hl
      have hceil := Int.ceil_pos.mpr hdiv
      omega
    · intro h
      rw [if_pos h]

/-- Witness for C8 at the sample inputs. -/
theorem claim8_witness :
    (0 : ℚ) < 2400 ∧ (0 : ℚ) < 35 ∧ (0 : ℚ) ≤ 600 ∧
    ((calculateTree sampleStock sampleTree none).stockMaterialNeeded.numberOfStockPieces
        = ⌈totalLinearLength sampleStock sampleTree
            (resolvedCutAngleDegrees sampleStock sampleTree none) / 2400⌉ ∧
      ((calculateTree sampleStock sampleTree none).stockMaterialNeeded.numberOfStockPieces
          = 0
        ↔ totalLinearLength sampleStock sampleTree
            (resolvedCutAngleDegrees sampleStock sampleTree none) = 0) ∧
      (calculateTree sampleStock sampleTree none).stockMaterialNeeded.totalLinearMeters
        = totalLinearLength sampleStock sampleTree
            (resolvedCutAngleDegrees sampleStock sampleTree none) / 1000) :=
  ⟨by norm_num, by norm_num, by norm_num,
    claim8_stock_pieces sampleStock sampleTree none
      (by norm_num [sampleStock]) (by norm_num [sampleStock])
      (by norm_num [sampleTree])⟩

/-- C9: for positive length, depth, height and a cut angle strictly
between 0 and 90 degrees, the wedge's top face spans
`length - 2 * height / tan(angle)` along the length axis, symmetrically
about the piece's center (x = 0), while the bottom face spans the full
length. -/
theorem claim9_wedge_top_span (l d h a : ℝ) (hl : 0 < l) (hd : 0 < d)
    (hh : 0 < h) (ha0 : 0 < a) (ha90 : a < 90) :
    (v5 l d h a).x - (v4 l d h a).x
      = l - 2 * h / Real.tan (a * Real.pi / 180) ∧
    (v6 l d h a).x = (v5 l d h a).x ∧
    (v7 l d h a).x = (v4 l d h a).x ∧
    (v4 l d h a).x + (v5 l d h a).x = 0 ∧
    (v1 l d h).x - (v0 l d h).x = l ∧
    (v0 l d h).x + (v1 l d h).x = 0 ∧
    (v2 l d h).x = (v1 l d h).x ∧
    (v3 l d h).x = (v0 l d h).x := by
  simp only [v0, v1, v2, v3, v4, v5, v6, v7, topHalfLength, bottomHalfLength,
    offsetOf, angleRadOf, halfHeight, halfDepth]
  refine ⟨by ring, by trivial, by trivial, by ring, by ring, by ring,
    by trivial, by trivial⟩

/-- Witness for C9 at length 10, depth 3, height 2, cut angle 45. -/
theorem claim9_witness :
    (0 : ℝ) < 10 ∧ (0 : ℝ) < 3 ∧ (0 : ℝ) < 2 ∧ (0 : ℝ) < 45 ∧
    (45 : ℝ) < 90 ∧
    ((v5 10 3 2 45).x - (v4 10 3 2 45).x
        = 10 - 2 * 2 / Real.tan (45 * Real.pi / 180) ∧
      (v6 10 3 2 45).x = (v5 10 3 2 45).x ∧
      (v7 10 3 2 45).x = (v4 10 3 2 45).x ∧
      (v4 10 3 2 45).x + (v5 10 3 2 45).x = 0 ∧
      (v1 10 3 2).x - (v0 10 3 2).x = 10 ∧
      (v0 10 3 2).x + (v1 10 3 2).x = 0 ∧
      (v2 10 3 2).x = (v1 10 3 2).x ∧
      (v3 10 3 2).x = (v0 10 3 2).x) :=
  ⟨by norm_num, by norm_num, by norm_num, by norm_num, by norm_num,
    claim9_wedge_top_span 10 3 2 45 (by norm_num) (by norm_num)
      (by norm_num) (by norm_num) (by norm_num)⟩

/-- C10: for every input, the wedge mesh's position attribute holds
exactly 36 vertices (108 floats, 12 triangles for the 6 logical faces)
and the uv attribute exactly 36 texture-coordinate pairs (72 floats),
one pair per position vertex, independently of the input values. -/
theorem claim10_vertex_counts (l d h a : ℝ) :
    (wedgePositions l d h a).length = 108 ∧
    (wedgePositions l d h a).length = 3 * 36 ∧
    wedgeUVs.length = 72 ∧
    wedgeUVs.length = 2 * 36 :=
  ⟨rfl, rfl, rfl, rfl⟩

end ChristmasTree
